import Mathlib

/-!
Verification development for the bottlerocket-test-system slice:
the controller's `TestInterface` helpers (`context.rs`), the job
construction logic (`job_builder.rs`) and the duplicator resource
provider example (`provider.rs`).

Source code is embedded shallowly: Rust structs become Lean structures,
pure functions become Lean functions, and fallible / effectful calls are
modelled with `Except` and explicit interaction records.
-/

/-! ## Finalizer tokens (context.rs lines 11-12) -/

/-- Embeds `const MAIN_FINALIZER: &str = "owned"` from context.rs. -/
def MAIN_FINALIZER : String := "owned"

/-- Embeds `const POD_FINALIZER: &str = "test-pod"` from context.rs. -/
def POD_FINALIZER : String := "test-pod"

/-! ## Test object data model (k8s `Test` custom resource as used by context.rs) -/

/-- Embeds the subset of `ObjectMeta` read by context.rs: `name`, `uid`,
`finalizers` and `deletion_timestamp`, all optional in k8s. -/
structure ObjectMeta where
  name : Option String := none
  uid : Option String := none
  finalizers : Option (List String) := none
  deletion_timestamp : Option String := none
deriving Repr, DecidableEq

/-- Modelled from the spec: the `ControllerStatus` struct of the `model`
crate (not under src/): the reconciler-owned sub-status holding the current
phase and resource pointers, constructible by `Default`. -/
structure ControllerStatus where
  phase : Option String := none
  resources : List String := []
deriving Repr, DecidableEq

instance : Inhabited ControllerStatus := ⟨{}⟩

/-- Modelled from the spec: the `AgentStatus` struct of the `model` crate
(not under src/): the agent-owned sub-status holding progress/results,
constructible by `Default`. -/
structure AgentStatus where
  results : Option String := none
deriving Repr, DecidableEq

instance : Inhabited AgentStatus := ⟨{}⟩

/-- Embeds `TestStatus` as used by context.rs: optional `controller` and
`agent` sub-status fields. -/
structure TestStatus where
  controller : Option ControllerStatus := none
  agent : Option AgentStatus := none
deriving Repr, DecidableEq

/-- Embeds the `Test` custom resource as read by context.rs: metadata
(`test.meta()`/`test.metadata`) and the optional `status` document.
The `spec` fields are not read by any claim-relevant code path other than
`agent()`, which is not needed here. -/
structure Test where
  metadata : ObjectMeta := {}
  status : Option TestStatus := none
deriving Repr, DecidableEq

/-- Finalizer list of a test with the `unwrap_or(&Vec::new())` convention
context.rs uses: an absent list reads as the empty list. -/
def Test.finalizerList (t : Test) : List String :=
  t.metadata.finalizers.getD []

/-! ## Finalizer operations (context.rs lines 119-174) -/

/-- Modelled from the spec: `TestClient::has_finalizer` of the `model`
crate (not under src/), the `has(test, token) -> bool` operation of the
FinalizerManager contract: whether the test's finalizer set contains the
token. -/
def has_finalizer (t : Test) (token : String) : Bool :=
  t.finalizerList.contains token

/-- Modelled from the spec: `TestClient::add_finalizer` of the `model`
crate (not under src/): adds the token to the test's finalizer set;
"already present" is a successful no-op. -/
def add_finalizer (t : Test) (token : String) : Test :=
  if has_finalizer t token then t
  else { t with metadata := { t.metadata with finalizers := some (t.finalizerList ++ [token]) } }

/-- Modelled from the spec: `TestClient::remove_finalizer` of the `model`
crate (not under src/): removes the token from the test's finalizer set;
"already absent" is a successful no-op. -/
def remove_finalizer (t : Test) (token : String) : Test :=
  { t with metadata := { t.metadata with finalizers := some (t.finalizerList.filter (fun f => f ≠ token)) } }

/-- Embeds `TestInterface::add_main_finalizer`: adds the main finalizer. -/
def add_main_finalizer (t : Test) : Test :=
  add_finalizer t MAIN_FINALIZER

/-- Embeds `TestInterface::add_pod_finalizer`: adds the pod finalizer. -/
def add_pod_finalizer (t : Test) : Test :=
  add_finalizer t POD_FINALIZER

/-- Embeds `TestInterface::remove_main_finalizer`: removes the main finalizer. -/
def remove_main_finalizer (t : Test) : Test :=
  remove_finalizer t MAIN_FINALIZER

/-- Embeds `TestInterface::remove_pod_finalizer`: removes the pod finalizer. -/
def remove_pod_finalizer (t : Test) : Test :=
  remove_finalizer t POD_FINALIZER

/-- Embeds `TestInterface::has_pod_finalizer`:
`TestClient::has_finalizer(&self.test, POD_FINALIZER)`. -/
def has_pod_finalizer (t : Test) : Bool :=
  has_finalizer t POD_FINALIZER

/-- Join of a list of strings with a separator, mirroring Rust's
`Vec::<String>::join`: separator between consecutive elements only. -/
def joinSep (sep : String) : List String → String
  | [] => ""
  | [x] => x
  | x :: y :: rest => x ++ sep ++ joinSep sep (y :: rest)

/-- Embeds `TestInterface::has_finalizers` (context.rs lines 133-142):
`!self.test.meta().finalizers.as_ref().unwrap_or(&Vec::new()).join(", ").is_empty()`. -/
def has_finalizers (t : Test) : Bool :=
  !(joinSep ", " t.finalizerList).isEmpty

/-- Embeds `TestInterface::is_safe_to_delete` (context.rs lines 151-161):
the finalizer count is zero, or it is one and the main finalizer is present. -/
def is_safe_to_delete (t : Test) : Bool :=
  let finalizer_count := (t.metadata.finalizers.map List.length).getD 0
  finalizer_count == 0 || (finalizer_count == 1 && has_finalizer t MAIN_FINALIZER)

/-- Embeds `TestInterface::is_delete_requested`: whether the deletion
timestamp is set. -/
def is_delete_requested (t : Test) : Bool :=
  t.metadata.deletion_timestamp.isSome

/-! ## Status accessors (context.rs lines 80-104) -/

/-- Embeds `TestInterface::controller_status`: the existing
`status.controller` when present, otherwise a default-constructed
`ControllerStatus` (the `Cow::Owned`/`Cow::Borrowed` distinction of the
source collapses to the returned value in a pure embedding). -/
def controller_status (t : Test) : ControllerStatus :=
  match t.status with
  | none => default
  | some status =>
    match status.controller with
    | none => default
    | some s => s

/-- Embeds `TestInterface::agent_status`: the existing `status.agent` when
present, otherwise a default-constructed `AgentStatus`. -/
def agent_status (t : Test) : AgentStatus :=
  match t.status with
  | none => default
  | some status =>
    match status.agent with
    | none => default
    | some s => s

/-! ## Job construction (job_builder.rs) -/

/-- Embeds the `Agent` struct of the `model` crate as read by
job_builder.rs: `name`, container `image` and optional `pull_secret`. -/
structure Agent where
  name : String
  image : String
  pull_secret : Option String := none
deriving Repr, DecidableEq

/-- Embeds `JobType` (job_builder.rs lines 17-21). -/
inductive JobType where
  | TestAgent
  | ResourceAgent
deriving Repr, DecidableEq

/-- Modelled from the spec: label keys of the `model` crate's constants
(APP_NAME, APP_INSTANCE, APP_COMPONENT, APP_PART_OF, APP_MANAGED_BY,
APP_CREATED_BY), the fixed provenance label keys; literal values are not
given under src/. -/
def APP_NAME : String := "app.kubernetes.io/name"

/-- Modelled from the spec: see `APP_NAME`. -/
def APP_INSTANCE : String := "app.kubernetes.io/instance"

/-- Modelled from the spec: see `APP_NAME`. -/
def APP_COMPONENT : String := "app.kubernetes.io/component"

/-- Modelled from the spec: see `APP_NAME`. -/
def APP_PART_OF : String := "app.kubernetes.io/part-of"

/-- Modelled from the spec: see `APP_NAME`. -/
def APP_MANAGED_BY : String := "app.kubernetes.io/managed-by"

/-- Modelled from the spec: see `APP_NAME`. -/
def APP_CREATED_BY : String := "app.kubernetes.io/created-by"

/-- Modelled from the spec: the `model` crate's TEST_AGENT role label value
(role `test-agent`). -/
def TEST_AGENT : String := "test-agent"

/-- Modelled from the spec: the `model` crate's RESOURCE_AGENT role label
value (role `resource-agent`). -/
def RESOURCE_AGENT : String := "resource-agent"

/-- Modelled from the spec: the `model` crate's TESTSYS part-of value. -/
def TESTSYS : String := "testsys"

/-- Modelled from the spec: the `model` crate's CONTROLLER
managed-by/created-by value. -/
def CONTROLLER : String := "testsys-controller"

/-- Modelled from the spec: the `model` crate's NAMESPACE constant. -/
def NAMESPACE : String := "testsys-bottlerocket-aws"

/-- Modelled from the spec: the `model` crate's
TEST_AGENT_SERVICE_ACCOUNT, the role-specific least-privilege execution
identity for test agents; distinct from the resource-agent identity. -/
def TEST_AGENT_SERVICE_ACCOUNT : String := "testsys-test-agent-account"

/-- Modelled from the spec: the `model` crate's
RESOURCE_AGENT_SERVICE_ACCOUNT, the role-specific least-privilege
execution identity for resource agents; distinct from the test-agent
identity. -/
def RESOURCE_AGENT_SERVICE_ACCOUNT : String := "testsys-resource-agent-account"

/-- Embeds `k8s_openapi` `EnvVar` as constructed by job_builder.rs. -/
structure EnvVar where
  name : String
  value : Option String := none
  value_from : Option String := none
deriving Repr, DecidableEq

/-- Embeds `k8s_openapi` `LocalObjectReference`. -/
structure LocalObjectReference where
  name : Option String := none
deriving Repr, DecidableEq

/-- Embeds the subset of `k8s_openapi` `Container` set by job_builder.rs. -/
structure Container where
  name : String := ""
  image : Option String := none
  env : Option (List EnvVar) := none
deriving Repr, DecidableEq

/-- Embeds the subset of `k8s_openapi` `PodSpec` set by job_builder.rs;
unset fields keep their `Default` value `None`/empty. -/
structure PodSpec where
  containers : List Container := []
  restart_policy : Option String := none
  image_pull_secrets : Option (List LocalObjectReference) := none
  service_account : Option String := none
deriving Repr, DecidableEq

/-- Embeds the subset of `k8s_openapi` `ObjectMeta` set by job_builder.rs:
name, namespace and labels (a `BTreeMap`, modelled as a key-sorted
association list). -/
structure K8sMeta where
  name : Option String := none
  namespaceField : Option String := none
  labels : Option (List (String × String)) := none
deriving Repr, DecidableEq

/-- Embeds `k8s_openapi` `PodTemplateSpec`. -/
structure PodTemplateSpec where
  metadata : Option K8sMeta := none
  spec : Option PodSpec := none
deriving Repr, DecidableEq

/-- Embeds the subset of `k8s_openapi` `JobSpec` set by job_builder.rs. -/
structure JobSpec where
  backoff_limit : Option Int := none
  template : PodTemplateSpec := {}
deriving Repr, DecidableEq

/-- Embeds `k8s_openapi` `Job` (metadata and spec as set by
job_builder.rs). -/
structure Job where
  metadata : K8sMeta := {}
  spec : Option JobSpec := none
deriving Repr, DecidableEq

/-- Embeds `JobBuilder` (job_builder.rs lines 23-30). -/
structure JobBuilder where
  agent : Agent
  job_name : String
  job_type : JobType
  component : String
  environment_variables : List (String × String)
deriving Repr, DecidableEq

/-- Insertion into a key-sorted association list, mirroring
`BTreeMap::insert` (later insert of an existing key overwrites). -/
def btreeInsert (k v : String) : List (String × String) → List (String × String)
  | [] => [(k, v)]
  | (k', v') :: rest =>
    if k < k' then (k, v) :: (k', v') :: rest
    else if k = k' then (k, v) :: rest
    else (k', v') :: btreeInsert k v rest

/-- Embeds `create_labels` (job_builder.rs lines 88-110): the six label
pairs collected into a `BTreeMap`. -/
def create_labels (job_type : JobType) (agent inst : String) : List (String × String) :=
  [(APP_NAME, inst),
   (APP_INSTANCE, agent),
   (APP_COMPONENT,
     match job_type with
     | JobType.TestAgent => TEST_AGENT
     | JobType.ResourceAgent => RESOURCE_AGENT),
   (APP_PART_OF, TESTSYS),
   (APP_MANAGED_BY, CONTROLLER),
   (APP_CREATED_BY, CONTROLLER)].foldl (fun m kv => btreeInsert kv.1 kv.2 m) []

/-- Embeds `env_vars` (job_builder.rs lines 112-121). -/
def env_vars (raw_vars : List (String × String)) : List EnvVar :=
  raw_vars.map (fun nv => { name := nv.1, value := some nv.2, value_from := none })

/-- Embeds `JobBuilder::build` (job_builder.rs lines 42-84). -/
def JobBuilder.build (b : JobBuilder) : Job :=
  let vars := env_vars b.environment_variables
  let labels := create_labels b.job_type b.agent.name b.job_name
  { metadata :=
      { name := some b.job_name
        namespaceField := some NAMESPACE
        labels := some labels }
    spec := some
      { backoff_limit := some 0
        template :=
          { spec := some
              { containers :=
                  [{ name := b.job_name
                     image := some b.agent.image
                     env := if vars.isEmpty then none else some vars }]
                restart_policy := some "Never"
                image_pull_secrets :=
                  b.agent.pull_secret.map (fun secret => [{ name := some secret }])
                service_account := some
                  (match b.job_type with
                   | JobType.TestAgent => TEST_AGENT_SERVICE_ACCOUNT
                   | JobType.ResourceAgent => RESOURCE_AGENT_SERVICE_ACCOUNT) }
            metadata := some { labels := some labels } } } }

/-! ## Duplicator resource provider (provider.rs) -/

/-- Embeds `serde_json::Value`: the schema-less JSON document type.
Object fields are kept as an association list in document order. -/
inductive Json where
  | null : Json
  | bool (b : Bool) : Json
  | num (n : Int) : Json
  | str (s : String) : Json
  | arr (xs : List Json) : Json
  | obj (fields : List (String × Json)) : Json

/-- Embeds `DuplicationRequest` (provider.rs lines 24-28): a single
`info` field holding an arbitrary JSON value. -/
structure DuplicationRequest where
  info : Json

/-- Embeds `Memo` (provider.rs lines 17-20): an optional
`DuplicationRequest` in its `info` field. -/
structure Memo where
  info : Option DuplicationRequest

/-- Embeds `DuplicatedData` (provider.rs lines 32-36): the duplicated
`info` JSON value. -/
structure DuplicatedData where
  info : Json

/-- Result of looking a field up the way serde's derived deserializer
visits a JSON object: absent, present exactly once, or duplicated
(serde raises a `duplicate field` error on the second occurrence). -/
inductive FieldLookup where
  | missing : FieldLookup
  | found (v : Json) : FieldLookup
  | dup : FieldLookup

/-- Field lookup over an object's fields in document order. -/
def lookupField (key : String) : List (String × Json) → FieldLookup
  | [] => FieldLookup.missing
  | (k, v) :: rest =>
    if k = key then
      match lookupField key rest with
      | FieldLookup.missing => FieldLookup.found v
      | _ => FieldLookup.dup
    else lookupField key rest

/-- Embeds serde serialization of `DuplicationRequest`:
`{"info": <value>}`. -/
def DuplicationRequest.toJson (r : DuplicationRequest) : Json :=
  Json.obj [("info", r.info)]

/-- Embeds serde deserialization of `DuplicationRequest`: the input must
be an object; the `info` field (a `Value`, so any JSON is accepted) must
be present exactly once; unknown fields are ignored; a missing or
duplicated field is an error (`none`). -/
def DuplicationRequest.fromJson : Json → Option DuplicationRequest
  | Json.obj fields =>
    match lookupField "info" fields with
    | FieldLookup.found v => some { info := v }
    | _ => none
  | _ => none

/-- Embeds serde serialization of `Memo`: `{"info": null}` when the
option is `None`, `{"info": <request>}` otherwise. -/
def Memo.toJson (m : Memo) : Json :=
  Json.obj [("info",
    match m.info with
    | none => Json.null
    | some r => r.toJson)]

/-- Embeds serde deserialization of `Memo`: the input must be an object;
a missing `info` field or a `null` value yields `None` (serde's implicit
default for `Option` fields); otherwise the value is deserialized as a
`DuplicationRequest`; a duplicated field is an error; unknown fields are
ignored. -/
def Memo.fromJson : Json → Option Memo
  | Json.obj fields =>
    match lookupField "info" fields with
    | FieldLookup.missing => some { info := none }
    | FieldLookup.dup => none
    | FieldLookup.found Json.null => some { info := none }
    | FieldLookup.found v => (DuplicationRequest.fromJson v).map (fun r => { info := some r })
  | _ => none

/-- Modelled from the spec: the `Resources` error-severity tag of the
resource-agent crate (not under src/): `Clear` means nothing was created,
`Remaining` means partial state exists and Destroy must still be
attempted. -/
inductive Resources where
  | Clear
  | Remaining
deriving Repr, DecidableEq

/-- Modelled from the spec: the resource-agent crate's `ProviderError`
(not under src/) as produced by the `context(resources, message)`
combinator: a severity tag plus a message. -/
structure ProviderError where
  resources : Resources
  message : String
deriving Repr

/-- Modelled from the spec: the resource-agent crate's `Spec<Config>`
request wrapper (not under src/): the immutable input configuration of a
create call (`request.configuration` is the only field provider.rs
reads). -/
structure Spec (Config : Type) where
  configuration : Config

/-- Modelled from the spec: one resolved behavior of an `InfoClient`
(not under src/): what `get_info` returns for this call, and what
`send_info` returns for a given document. `get_info` performs one atomic
read of the shared Info document; `send_info` performs one atomic write. -/
structure InfoClientModel where
  get_info : Except String Memo
  send_info : Memo → Except String Unit

/-- Embeds `DuplicationCreator::create` (provider.rs lines 48-68).
Returns the provider result paired with the list of documents passed to
`send_info` (the observable writes to the Info channel). Reading the Info
channel fails with severity `Clear`; writing it after a successful read
fails with severity `Remaining`; on success the read memo with its `info`
field replaced by the request configuration is written back, and the
configuration's `info` value is returned as the `DuplicatedData`. -/
def DuplicationCreator.create (request : Spec DuplicationRequest) (client : InfoClientModel) :
    Except ProviderError DuplicatedData × List Memo :=
  match client.get_info with
  | Except.error _ =>
    (Except.error { resources := Resources.Clear, message := "Unable to get info from client" }, [])
  | Except.ok memo =>
    let memo' : Memo := { memo with info := some request.configuration }
    match client.send_info memo' with
    | Except.error _ =>
      (Except.error
        { resources := Resources.Remaining, message := "Error sending cluster created message" },
        [memo'])
    | Except.ok _ => (Except.ok { info := request.configuration.info }, [memo'])

/-- Embeds `DuplicationDestroyer::destroy` (provider.rs lines 78-89):
ignores the optional request, optional resource and client, and returns
`Ok(())` ("Nothing to destroy."). -/
def DuplicationDestroyer.destroy (_request : Option (Spec DuplicationRequest))
    (_resource : Option DuplicatedData) (_client : InfoClientModel) :
    Except ProviderError Unit :=
  Except.ok ()

/-! ## Concrete fixtures used to witness theorems with hypotheses -/

/-- A concrete duplication request. -/
def reqFixture : Spec DuplicationRequest := ⟨⟨Json.num 7⟩⟩

/-- A concrete memo as read from the Info channel. -/
def memoFixture : Memo := ⟨none⟩

/-- A client whose `get_info` fails. -/
def clientGetFails : InfoClientModel :=
  ⟨Except.error "boom", fun _ => Except.ok ()⟩

/-- A client whose `get_info` succeeds and whose `send_info` fails. -/
def clientSendFails : InfoClientModel :=
  ⟨Except.ok memoFixture, fun _ => Except.error "boom"⟩

/-- A client whose calls all succeed. -/
def clientOk : InfoClientModel :=
  ⟨Except.ok memoFixture, fun _ => Except.ok ()⟩

/-- A concrete controller sub-status. -/
def csFixture : ControllerStatus := { phase := some "Running" }

/-- A concrete test whose status has a controller sub-status but no agent
sub-status. -/
def testFixture : Test :=
  { status := some { controller := some csFixture, agent := none } }

/-! ## Helper lemmas -/

/-- The `", "`-join of a list of strings is empty exactly when the list is
empty or is the singleton empty string. -/
theorem joinSep_eq_empty_iff (l : List String) :
    (joinSep ", " l).isEmpty = true ↔ (l = [] ∨ l = [""]) := by
  match l with
  | [] => simp [joinSep, String.isEmpty_iff]
  | [x] => simp [joinSep, String.isEmpty_iff]
  | x :: y :: rest =>
    simp only [joinSep, String.isEmpty_iff]
    constructor
    · intro h
      have hlen := congrArg String.length h
      have h2 : (", " : String).length = 2 := rfl
      simp only [String.length_append, String.length_empty] at hlen
      omega
    · intro h
      rcases h with h | h <;> simp at h

/-! ## Claim theorems -/

/-- C1: `is_safe_to_delete` is true iff the Test's finalizer set is empty
or is exactly the singleton containing the main finalizer token; it is
false for a singleton holding any other token and for any set of two or
more entries. -/
theorem is_safe_to_delete_iff (t : Test) :
    is_safe_to_delete t = true ↔
      (t.finalizerList = [] ∨ t.finalizerList = [MAIN_FINALIZER]) := by
  unfold is_safe_to_delete has_finalizer Test.finalizerList MAIN_FINALIZER
  cases hf : t.metadata.finalizers with
  | none => simp
  | some l =>
    cases l with
    | nil => simp
    | cons x xs =>
      cases xs with
      | nil => simp [List.contains, eq_comm]
      | cons y ys => simp [Nat.succ_ne_zero]

/-- C1 witness: concrete evaluations — the empty set and the singleton
`["owned"]` are safe to delete. -/
theorem is_safe_to_delete_iff_witness :
    is_safe_to_delete { metadata := { finalizers := some ["owned"] } } = true :=
  (is_safe_to_delete_iff { metadata := { finalizers := some ["owned"] } }).mpr
    (Or.inr rfl)

/-- C2: serializing a Memo document and deserializing the result yields
the original document, field for field, whatever JSON value (including
fields no schema recognizes) its payload carries. -/
theorem memo_roundtrip (m : Memo) : Memo.fromJson m.toJson = some m := by
  cases m with
  | mk info =>
    cases info with
    | none => rfl
    | some r => cases r with | mk v => rfl

/-- C3: the duplicator's create tags a failed Info read with severity
`Clear` (nothing was created) and a failed Info write after a successful
read with severity `Remaining` (partial state exists). -/
theorem create_error_severities (r : Spec DuplicationRequest) (c : InfoClientModel) :
    (∀ e, c.get_info = Except.error e →
      (DuplicationCreator.create r c).1 =
        Except.error { resources := Resources.Clear, message := "Unable to get info from client" }) ∧
    (∀ memo e, c.get_info = Except.ok memo →
      c.send_info { memo with info := some r.configuration } = Except.error e →
      (DuplicationCreator.create r c).1 =
        Except.error
          { resources := Resources.Remaining, message := "Error sending cluster created message" }) := by
  constructor
  · intro e hget
    simp [DuplicationCreator.create, hget]
  · intro memo e hget hsend
    simp [DuplicationCreator.create, hget, hsend]

/-- C3 witness: concrete clients exhibiting both severities. -/
theorem create_error_severities_witness :
    (DuplicationCreator.create reqFixture clientGetFails).1 =
      Except.error { resources := Resources.Clear, message := "Unable to get info from client" } ∧
    (DuplicationCreator.create reqFixture clientSendFails).1 =
      Except.error
        { resources := Resources.Remaining, message := "Error sending cluster created message" } :=
  ⟨(create_error_severities reqFixture clientGetFails).1 "boom" rfl,
   (create_error_severities reqFixture clientSendFails).2 memoFixture "boom" rfl rfl⟩

/-- C4: the duplicator's destroy returns `Ok(())` for every combination
of present/absent request and resource and every client, and any sequence
of repeated calls returns `Ok(())` each time. -/
theorem destroy_always_ok (request : Option (Spec DuplicationRequest))
    (resource : Option DuplicatedData) (client : InfoClientModel) (n : Nat) :
    DuplicationDestroyer.destroy request resource client = Except.ok () ∧
    List.replicate n (DuplicationDestroyer.destroy request resource client) =
      List.replicate n (Except.ok ()) :=
  ⟨rfl, rfl⟩

/-- C5: on a successful create, the document written back to the Info
channel is the read memo with its `info` field set to the request's
configuration, and the returned resource duplicates the configuration's
`info` value. -/
theorem create_success_spec (r : Spec DuplicationRequest) (c : InfoClientModel) (memo : Memo)
    (hget : c.get_info = Except.ok memo)
    (hsend : c.send_info { memo with info := some r.configuration } = Except.ok ()) :
    DuplicationCreator.create r c =
      (Except.ok { info := r.configuration.info },
       [{ memo with info := some r.configuration }]) := by
  simp [DuplicationCreator.create, hget, hsend]

/-- C5 witness: a concrete successful create duplicates the request into
both the Info channel and the returned resource. -/
theorem create_success_spec_witness :
    DuplicationCreator.create reqFixture clientOk =
      (Except.ok { info := reqFixture.configuration.info },
       [{ memoFixture with info := some reqFixture.configuration }]) :=
  create_success_spec reqFixture clientOk memoFixture rfl rfl

/-- C6: the reserved finalizer tokens are exactly `"owned"` (main) and
`"test-pod"` (pod), and every finalizer operation uses these literal
tokens. -/
theorem finalizer_tokens_spec :
    MAIN_FINALIZER = "owned" ∧ POD_FINALIZER = "test-pod" ∧
    (∀ t : Test,
      add_main_finalizer t = add_finalizer t "owned" ∧
      add_pod_finalizer t = add_finalizer t "test-pod" ∧
      remove_main_finalizer t = remove_finalizer t "owned" ∧
      remove_pod_finalizer t = remove_finalizer t "test-pod" ∧
      has_pod_finalizer t = has_finalizer t "test-pod" ∧
      is_safe_to_delete t =
        (((t.metadata.finalizers.map List.length).getD 0 == 0) ||
         (((t.metadata.finalizers.map List.length).getD 0 == 1) && has_finalizer t "owned"))) :=
  ⟨rfl, rfl, fun _ => ⟨rfl, rfl, rfl, rfl, rfl, rfl⟩⟩

/-- C7: every built Job has backoff limit 0 and restart policy "Never". -/
theorem build_no_retry (b : JobBuilder) :
    (b.build.spec.bind fun s => s.template.spec.map fun p => (s.backoff_limit, p.restart_policy)) =
      some (some 0, some "Never") := rfl

/-- C8: the built Job's service account is determined solely by the job
type — the test-agent account for `TestAgent`, the resource-agent account
for `ResourceAgent` — and the two accounts are distinct identities. -/
theorem build_service_account_by_role (b : JobBuilder) :
    (b.build.spec.bind fun s => s.template.spec.bind fun p => p.service_account) =
      some (match b.job_type with
            | JobType.TestAgent => TEST_AGENT_SERVICE_ACCOUNT
            | JobType.ResourceAgent => RESOURCE_AGENT_SERVICE_ACCOUNT) ∧
    TEST_AGENT_SERVICE_ACCOUNT ≠ RESOURCE_AGENT_SERVICE_ACCOUNT :=
  ⟨rfl, by decide⟩

/-- C9: `controller_status` and `agent_status` return the existing
sub-status when the status document and the sub-field are present, and a
default-constructed value when either is absent; as pure functions of the
Test they leave it unmodified. -/
theorem status_accessors_spec (t : Test) :
    (t.status = none → controller_status t = default ∧ agent_status t = default) ∧
    (∀ s, t.status = some s →
      (s.controller = none → controller_status t = default) ∧
      (∀ cs, s.controller = some cs → controller_status t = cs) ∧
      (s.agent = none → agent_status t = default) ∧
      (∀ a, s.agent = some a → agent_status t = a)) := by
  constructor
  · intro h
    simp [controller_status, agent_status, h]
  · intro s hs
    refine ⟨?_, ?_, ?_, ?_⟩ <;>
      (intros; simp [controller_status, agent_status, hs, *])

/-- C9 witness: concrete evaluations on a Test carrying a controller
sub-status and no agent sub-status. -/
theorem status_accessors_spec_witness :
    controller_status testFixture = csFixture ∧ agent_status testFixture = default :=
  ⟨((status_accessors_spec testFixture).2 _ rfl).2.1 csFixture rfl,
   ((status_accessors_spec testFixture).2 _ rfl).2.2.1 rfl⟩

/-- C10: `has_finalizers` is true exactly when joining the finalizer list
with `", "` is non-empty: false for an absent or empty list and for the
singleton empty-string token, true for any list of two or more entries. -/
theorem has_finalizers_iff (t : Test) :
    has_finalizers t = true ↔
      ¬(t.finalizerList = [] ∨ t.finalizerList = [""]) := by
  rw [← joinSep_eq_empty_iff]
  simp [has_finalizers]
